import Mathlib

/-!
Verification of the mini-messenger session/room/broadcast core.

The backend handlers in `src/backend/src/index.js` (the Socket.io `joinRoom`,
`chatMessage`, `leaveRoom` handlers and the authentication middleware) and the
REST routes in `src/backend/src/routes/chat.js` and the rooms route are embedded
shallowly below.  JavaScript strings are modelled as Lean `String` (lists of
characters); `String.prototype.trim` and `.length` are modelled on the character
list, which agrees with JavaScript on the ASCII inputs used throughout.  The
MongoDB message and room collections are modelled as in-memory lists kept in
insertion order; `new Date()` is modelled by a `now` field of the server state,
and Mongo `_id` assignment by a `nextId` counter.  Handler side effects
(`message.save()`, `socket.emit`, `socket.to(room).emit`, `io.to(room).emit`)
are reified as an ordered trace of `Action`s: the order of the trace is the
execution order of the effects in the handler body.
-/

set_option maxRecDepth 10000

namespace MiniMessenger

/-- Character-list version of JavaScript `String.prototype.trim`:
drop whitespace from the front, then from the back. -/
def trimChars (l : List Char) : List Char :=
  ((l.dropWhile Char.isWhitespace).reverse.dropWhile Char.isWhitespace).reverse

/-- JavaScript `s.trim()` on the string model. -/
def jsTrim (s : String) : String :=
  String.mk (trimChars s.data)

/-- JavaScript `s.length` on the string model. -/
def jsLength (s : String) : Nat :=
  s.data.length

/-- A stored chat message (the `Message` model of `models/Message.js`):
room name, author username, text, server-assigned timestamp `ts`
(milliseconds, modelled as `Nat`) and store-assigned identifier. -/
structure Msg where
  room : String
  username : String
  text : String
  ts : Nat
  id : Nat
deriving Repr, DecidableEq

/-- The external stores and the server clock: the room collection (names),
the message collection in insertion order, the next Mongo identifier and the
current time used for `new Date()`. -/
structure ServerState where
  rooms : List String
  messages : List Msg
  nextId : Nat
  now : Nat
deriving Repr, DecidableEq

/-- One Socket.io connection after authentication: its socket id, the
authenticated username, and `socket.rooms` — the set of rooms the socket is
subscribed to.  Socket.io initialises `socket.rooms` to the singleton of the
socket's own id, and `socket.join` adds to the set. -/
structure Socket where
  sid : String
  username : String
  rooms : List String
deriving Repr, DecidableEq

/-- `socket.join(room)`: adds the room to `socket.rooms` (a set: joining a
room already present is a no-op). -/
def Socket.join (s : Socket) (r : String) : Socket :=
  if r ∈ s.rooms then s else { s with rooms := s.rooms ++ [r] }

/-- The membership of a connection in the sense of the specification: the
rooms in `socket.rooms` other than the transport-internal room named by the
socket's own id. -/
def Socket.memberships (s : Socket) : List String :=
  s.rooms.filter (fun r => decide (r ≠ s.sid))

/-- Payloads emitted to clients by the socket handlers. -/
inductive Event where
  | error (msg : String)
  | roomHistory (room : String) (msgs : List Msg)
  | userJoined (username room : String)
  | message (room username text : String) (ts id : Nat)
deriving Repr, DecidableEq

/-- One observable effect of a handler, in execution order:
`save` is `message.save()` (the ledger append), `emitSelf` is
`socket.emit`, `emitRoomExceptSelf` is `socket.to(room).emit` (everyone in
the room except the sender), `emitRoom` is `io.to(room).emit` (everyone in
the room, sender included). -/
inductive Action where
  | save (m : Msg)
  | emitSelf (e : Event)
  | emitRoomExceptSelf (room : String) (e : Event)
  | emitRoom (room : String) (e : Event)
deriving Repr, DecidableEq

/-- Whether an action is the ledger append. -/
def Action.isSave : Action → Bool
  | Action.save _ => true
  | _ => false

/-- Whether an action is a room-wide broadcast (`io.to(room).emit`). -/
def Action.isPublish : Action → Bool
  | Action.emitRoom _ _ => true
  | _ => false

/-- Socket.io delivery semantics: the socket ids a given action is delivered
to, given the current list of connected sockets and the emitting socket's id. -/
def deliverTo (sockets : List Socket) (selfSid : String) : Action → List String
  | Action.save _ => []
  | Action.emitSelf _ => [selfSid]
  | Action.emitRoomExceptSelf room _ =>
      (sockets.filter (fun s => decide (room ∈ s.rooms) && decide (s.sid ≠ selfSid))).map Socket.sid
  | Action.emitRoom room _ =>
      (sockets.filter (fun s => decide (room ∈ s.rooms))).map Socket.sid

/-- The error message the `joinRoom` handler emits for a room absent from the
room collection. -/
def notFoundMsg (r : String) : String :=
  "Room \"" ++ r ++ "\" does not exist. Please create the room first."

/-- The specification's error taxonomy. -/
inductive ErrKind where
  | auth
  | validation
  | notFound
  | state
  | storage
  | unknown
deriving Repr, DecidableEq

/-- Classification of the handlers' emitted error strings into the
specification's taxonomy. -/
def errKind (msg : String) : ErrKind :=
  if msg = "Invalid room name" then ErrKind.validation
  else if msg = "Message text is required" then ErrKind.validation
  else if msg = "Message cannot exceed 1000 characters" then ErrKind.validation
  else if msg = "You must join the room first" then ErrKind.state
  else if msg.data.take 6 = ('R' :: 'o' :: 'o' :: 'm' :: ' ' :: '"' :: []) then ErrKind.notFound
  else ErrKind.unknown

/-- Messages of a given room in store (insertion) order:
`Message.find({ room: roomName })`. -/
def roomMsgs (store : List Msg) (room : String) : List Msg :=
  store.filter (fun m => decide (m.room = room))

/-- Timestamp comparison relations used to model the Mongo sorts. -/
def tsLe (a b : Msg) : Prop := a.ts ≤ b.ts

/-- Reversed timestamp order (`sort({ ts: -1 })`). -/
def tsGe (a b : Msg) : Prop := b.ts ≤ a.ts

/-- Strict descending timestamp order. -/
def tsGt (a b : Msg) : Prop := b.ts < a.ts

instance : DecidableRel tsLe := fun a b => Nat.decLe a.ts b.ts

instance : DecidableRel tsGe := fun a b => Nat.decLe b.ts a.ts

instance : IsTotal Msg tsLe := ⟨fun a b => Nat.le_total a.ts b.ts⟩

instance : IsTrans Msg tsLe := ⟨fun _ _ _ h1 h2 => Nat.le_trans h1 h2⟩

instance : IsTotal Msg tsGe := ⟨fun a b => Nat.le_total b.ts a.ts⟩

instance : IsTrans Msg tsGe := ⟨fun _ _ _ h1 h2 => Nat.le_trans h2 h1⟩

instance : IsAntisymm Msg tsGt :=
  ⟨fun _ _ h1 h2 => absurd (Nat.lt_trans h1 h2) (Nat.lt_irrefl _)⟩

/-- The history read implemented by `joinRoom` and the GET routes:
`Message.find({room}).sort({ts:-1}).limit(lim)` followed by
`messages.reverse()`.  The Mongo descending sort is modelled by (stable)
insertion sort under `tsGe`. -/
def recentMessages (store : List Msg) (room : String) (lim : Nat) : List Msg :=
  ((List.insertionSort tsGe (roomMsgs store room)).take lim).reverse

/-- Modelled from the spec: the room's messages in chronological
(oldest-first) order, of which `recent` is claimed to return the last `lim`
elements.  This follows the specification's words, for comparison with
`recentMessages`, which follows the code. -/
def lastChronological (store : List Msg) (room : String) (lim : Nat) : List Msg :=
  let chron := List.insertionSort tsLe (roomMsgs store room)
  chron.drop (chron.length - lim)

/-- The Socket.io `joinRoom` handler of `index.js` (database-connectivity
branches elided: the store is available).  Validates the room name is a
nonempty string after trimming, checks existence in the room collection,
joins, reads history and notifies the room. -/
def joinRoom (st : ServerState) (self : Socket) (room : String) :
    Socket × List Action :=
  if jsLength (jsTrim room) = 0 then
    (self, [Action.emitSelf (Event.error "Invalid room name")])
  else
    let roomName := jsTrim room
    if roomName ∈ st.rooms then
      let self2 := Socket.join self roomName
      let msgs := recentMessages st.messages roomName 50
      (self2,
        [Action.emitSelf (Event.roomHistory roomName msgs),
         Action.emitRoomExceptSelf roomName (Event.userJoined self.username roomName)])
    else
      (self, [Action.emitSelf (Event.error (notFoundMsg roomName))])

/-- The Socket.io `chatMessage` handler of `index.js`: validates the room
name and the text (raw length bound!), requires `socket.rooms.has(roomName)`,
then saves the message and broadcasts it to the room. -/
def chatMessage (st : ServerState) (self : Socket) (room text : String) :
    ServerState × List Action :=
  if jsLength (jsTrim room) = 0 then
    (st, [Action.emitSelf (Event.error "Invalid room name")])
  else if jsLength (jsTrim text) = 0 then
    (st, [Action.emitSelf (Event.error "Message text is required")])
  else if 1000 < jsLength text then
    (st, [Action.emitSelf (Event.error "Message cannot exceed 1000 characters")])
  else
    let roomName := jsTrim room
    let messageText := jsTrim text
    if roomName ∈ self.rooms then
      let m : Msg :=
        { room := roomName, username := self.username, text := messageText,
          ts := st.now, id := st.nextId }
      ({ st with messages := st.messages ++ [m], nextId := st.nextId + 1 },
        [Action.save m,
         Action.emitRoom roomName (Event.message m.room m.username m.text m.ts m.id)])
    else
      (st, [Action.emitSelf (Event.error "You must join the room first")])

/-- Results of the REST handlers of `routes/chat.js` and the rooms route. -/
inductive RestResult where
  | badRequest (msg : String)
  | conflict (msg : String)
  | created (m : Msg)
  | createdRoom (name : String)
deriving Repr, DecidableEq

/-- Whether a REST result is a 201 message creation. -/
def RestResult.isCreated : RestResult → Bool
  | RestResult.created _ => true
  | _ => false

/-- The REST `POST /api/chat/messages` handler of `routes/chat.js`:
express-validator trims `room` and `text` in place, requires both nonempty and
the (trimmed) text at most 1000 characters, then saves the message — with no
room-existence check. -/
def postMessage (st : ServerState) (username room text : String) :
    ServerState × RestResult :=
  let roomT := jsTrim room
  let textT := jsTrim text
  if jsLength roomT = 0 then
    (st, RestResult.badRequest "Room is required")
  else if jsLength textT = 0 then
    (st, RestResult.badRequest "Message text is required")
  else if 1000 < jsLength textT then
    (st, RestResult.badRequest "Message cannot exceed 1000 characters")
  else
    let m : Msg :=
      { room := roomT, username := username, text := textT,
        ts := st.now, id := st.nextId }
    ({ st with messages := st.messages ++ [m], nextId := st.nextId + 1 },
      RestResult.created m)

/-- A character allowed by the room-name grammar `/^[a-zA-Z0-9_-]+$/`. -/
def isRoomNameChar (c : Char) : Bool :=
  c.isAlpha || c.isDigit || c = '-' || c = '_'

/-- The room-name grammar enforced by the `Room` schema and the
`POST /rooms` validators: nonempty, 1 to 50 characters, letters, digits,
hyphen, underscore. -/
def validRoomName (s : String) : Bool :=
  decide (1 ≤ jsLength s) && decide (jsLength s ≤ 50) && s.data.all isRoomNameChar

/-- The REST `POST /rooms` handler (rooms route): validates the trimmed name
against the grammar, rejects duplicates with 409, otherwise creates the room. -/
def createRoom (st : ServerState) (name : String) : ServerState × RestResult :=
  let n := jsTrim name
  if validRoomName n = false then
    (st, RestResult.badRequest "Validation failed")
  else if n ∈ st.rooms then
    (st, RestResult.conflict "Room name already exists")
  else
    ({ st with rooms := st.rooms ++ [n] }, RestResult.createdRoom n)

/-- A stored user record (`models/User.js`): Mongo id (as string) and
username. -/
structure User where
  uid : String
  username : String
deriving Repr, DecidableEq

/-- Outcome of `jwt.verify`: throws `JsonWebTokenError` (malformed / bad
signature), throws `TokenExpiredError`, or returns the decoded payload —
the repository signs tokens as `{ userId, username }`. -/
inductive JwtResult where
  | malformed
  | expired
  | ok (userId : String) (username : String)
deriving Repr, DecidableEq

/-- Outcome of the Socket.io authentication middleware: either the connection
proceeds with `socket.userId` and `socket.username` set, or the handshake is
rejected (`next(new Error(...))` terminates the connection attempt) and no
session state is retained. -/
inductive AuthOutcome where
  | success (userId username : String)
  | failure (reason : String)
deriving Repr, DecidableEq

/-- `User.findById(userId)` on the modelled user collection. -/
def findUser (users : List User) (userId : String) : Option User :=
  users.find? (fun u => decide (u.uid = userId))

/-- The Socket.io authentication middleware (`io.use` in `index.js`),
parameterised by the external `jwt.verify` (an opaque pure function of the
token, the clock and the key material): missing token, malformed token,
expired token and unresolvable identity each fail with their specific
message; otherwise the session identity is the resolved user's id and
username. -/
def socketAuth (verify : String → JwtResult) (users : List User)
    (token : Option String) : AuthOutcome :=
  match token with
  | none => AuthOutcome.failure "Authentication error: No token provided"
  | some t =>
    match verify t with
    | JwtResult.malformed => AuthOutcome.failure "Authentication error: Invalid token"
    | JwtResult.expired => AuthOutcome.failure "Authentication error: Token expired"
    | JwtResult.ok userId _ =>
      match findUser users userId with
      | none => AuthOutcome.failure "Authentication error: User not found"
      | some u => AuthOutcome.success u.uid u.username

/-- The message built and saved by the `chatMessage` handler on the success
path. -/
def sentMsg (st : ServerState) (self : Socket) (room text : String) : Msg :=
  { room := jsTrim room, username := self.username, text := jsTrim text,
    ts := st.now, id := st.nextId }

/-- The message built and saved by the REST `POST /api/chat/messages`
handler on the success path. -/
def restMsg (st : ServerState) (user room text : String) : Msg :=
  { room := jsTrim room, username := user, text := jsTrim text,
    ts := st.now, id := st.nextId }

/-- A concrete server state used by concrete instantiations: two rooms,
empty message ledger. -/
def stW : ServerState :=
  { rooms := ["alpha", "beta"], messages := [], nextId := 0, now := 7 }

/-- A freshly connected socket (member of no room). -/
def sockW : Socket :=
  { sid := "s1", username := "alice", rooms := ["s1"] }

/-- A socket already joined to room `alpha`. -/
def sockW2 : Socket :=
  { sid := "s2", username := "bob", rooms := ["s2", "alpha"] }

/-- A text of raw length 1001 whose trimmed length is 1000. -/
def longText : String :=
  String.mk (' ' :: List.replicate 1000 'a')

/-- Two messages with equal timestamps in the same room (a timestamp tie). -/
def tieStore : List Msg :=
  [{ room := "r", username := "a", text := "x", ts := 5, id := 0 },
   { room := "r", username := "b", text := "y", ts := 5, id := 1 }]

/-- A store of three messages with pairwise-distinct timestamps. -/
def distinctStore : List Msg :=
  [{ room := "r", username := "a", text := "x", ts := 1, id := 0 },
   { room := "r", username := "b", text := "y", ts := 3, id := 1 },
   { room := "r", username := "c", text := "z", ts := 2, id := 2 }]

/-- A concrete `jwt.verify` for instantiations: one known good token. -/
def verifyW : String → JwtResult :=
  fun t => if t = "tok" then JwtResult.ok "u1" "alice" else JwtResult.malformed

/-- A concrete user collection for instantiations. -/
def usersW : List User :=
  [{ uid := "u1", username := "alice" }]

/-! ## Helper lemmas -/

theorem dataAppend (s t : String) : (s ++ t).data = s.data ++ t.data := rfl

theorem notFoundMsg_take6 (r : String) :
    (notFoundMsg r).data.take 6 = ('R' :: 'o' :: 'o' :: 'm' :: ' ' :: '"' :: []) := by
  show ((("Room \"" ++ r) ++ "\" does not exist. Please create the room first.").data).take 6 = _
  rw [dataAppend, dataAppend]
  rfl

theorem errKind_notFoundMsg (r : String) : errKind (notFoundMsg r) = ErrKind.notFound := by
  have h6 := notFoundMsg_take6 r
  have ne1 : ¬ notFoundMsg r = "Invalid room name" := by
    intro h; rw [h] at h6; exact absurd h6 (by decide)
  have ne2 : ¬ notFoundMsg r = "Message text is required" := by
    intro h; rw [h] at h6; exact absurd h6 (by decide)
  have ne3 : ¬ notFoundMsg r = "Message cannot exceed 1000 characters" := by
    intro h; rw [h] at h6; exact absurd h6 (by decide)
  have ne4 : ¬ notFoundMsg r = "You must join the room first" := by
    intro h; rw [h] at h6; exact absurd h6 (by decide)
  simp [errKind, ne1, ne2, ne3, ne4, h6]

/-! ## Claim C1 -/

/-- Claim C1, as stated, is false: the `joinRoom` handler's
"leave previous rooms" step is commented out in the source, so a second
successful join does not release the first membership.  Concretely: a
connection joins `alpha` (successfully: it receives the history event), then
joins `beta` (successfully), and afterwards its membership index holds both
rooms — not at most one. -/
theorem join_second_room_keeps_first_cex :
    (joinRoom stW sockW "alpha").2
        = [Action.emitSelf (Event.roomHistory "alpha" []),
           Action.emitRoomExceptSelf "alpha" (Event.userJoined "alice" "alpha")]
    ∧ (joinRoom stW (joinRoom stW sockW "alpha").1 "beta").2
        = [Action.emitSelf (Event.roomHistory "beta" []),
           Action.emitRoomExceptSelf "beta" (Event.userJoined "alice" "beta")]
    ∧ Socket.memberships (joinRoom stW (joinRoom stW sockW "alpha").1 "beta").1
        = ["alpha", "beta"]
    ∧ ¬ (Socket.memberships (joinRoom stW (joinRoom stW sockW "alpha").1 "beta").1).length ≤ 1 := by
  decide

/-- Claim C1 amended: a successful join records the new membership but does
not release any prior one — the new room is in `socket.rooms` afterwards and
every previously held room remains, so a connection may be joined to several
rooms at once. -/
theorem join_accumulates_memberships (st : ServerState) (self : Socket) (room : String)
    (hr : jsLength (jsTrim room) ≠ 0) (hex : jsTrim room ∈ st.rooms) :
    jsTrim room ∈ (joinRoom st self room).1.rooms
    ∧ ∀ r ∈ self.rooms, r ∈ (joinRoom st self room).1.rooms := by
  have hres : (joinRoom st self room).1 = Socket.join self (jsTrim room) := by
    simp [joinRoom, hr, hex]
  rw [hres]
  unfold Socket.join
  by_cases h : jsTrim room ∈ self.rooms
  · simp only [if_pos h]
    exact ⟨h, fun r hr2 => hr2⟩
  · simp only [if_neg h]
    refine ⟨by simp, fun r hr2 => by simp [hr2]⟩

/-- Concrete instantiation of `join_accumulates_memberships`. -/
theorem join_accumulates_memberships_witness :
    jsTrim "alpha" ∈ (joinRoom stW sockW "alpha").1.rooms
    ∧ ∀ r ∈ sockW.rooms, r ∈ (joinRoom stW sockW "alpha").1.rooms :=
  join_accumulates_memberships stW sockW "alpha" (by decide) (by decide)

/-! ## Claim C2 -/

/-- Claim C2: a `chatMessage` whose (validated) room the sender has not
joined fails with the StateError message, leaves the message store untouched
and performs no append and no broadcast — whatever the room's existence
status in the room collection (the state `st` is arbitrary), and, for the
no-append/no-broadcast part, whatever the text. -/
theorem send_not_member_state_error (st : ServerState) (self : Socket) (room text : String)
    (hr : jsLength (jsTrim room) ≠ 0) (ht : jsLength (jsTrim text) ≠ 0)
    (hlen : jsLength text ≤ 1000) (hmem : jsTrim room ∉ self.rooms) :
    chatMessage st self room text
        = (st, [Action.emitSelf (Event.error "You must join the room first")])
    ∧ errKind "You must join the room first" = ErrKind.state
    ∧ ∀ t2 : String, (chatMessage st self room t2).1 = st
        ∧ ((chatMessage st self room t2).2.all (fun a => !a.isSave && !a.isPublish)) = true := by
  refine ⟨?_, by decide, ?_⟩
  · simp [chatMessage, hr, ht, hmem, Nat.not_lt.2 hlen]
  · intro t2
    by_cases h2 : jsLength (jsTrim t2) = 0
    · simp [chatMessage, hr, h2, Action.isSave, Action.isPublish]
    · by_cases h3 : 1000 < jsLength t2
      · simp [chatMessage, hr, h2, h3, Action.isSave, Action.isPublish]
      · simp [chatMessage, hr, h2, h3, hmem, Action.isSave, Action.isPublish]

/-- Concrete instantiation of `send_not_member_state_error`: `alpha` exists
but `alice` has not joined it. -/
theorem send_not_member_state_error_witness :
    chatMessage stW sockW "alpha" "hi"
        = (stW, [Action.emitSelf (Event.error "You must join the room first")])
    ∧ errKind "You must join the room first" = ErrKind.state
    ∧ ∀ t2 : String, (chatMessage stW sockW "alpha" t2).1 = stW
        ∧ ((chatMessage stW sockW "alpha" t2).2.all (fun a => !a.isSave && !a.isPublish)) = true :=
  send_not_member_state_error stW sockW "alpha" "hi"
    (by decide) (by decide) (by decide) (by decide)

/-! ## Claim C3 -/

/-- Claim C3: joining a (validated) room name the room collection does not
contain emits exactly the NotFound error — the socket, and in particular its
membership, is unchanged, and no history event and no join notification is
produced. -/
theorem join_nonexistent_notfound (st : ServerState) (self : Socket) (room : String)
    (hr : jsLength (jsTrim room) ≠ 0) (habs : jsTrim room ∉ st.rooms) :
    joinRoom st self room
        = (self, [Action.emitSelf (Event.error (notFoundMsg (jsTrim room)))])
    ∧ errKind (notFoundMsg (jsTrim room)) = ErrKind.notFound := by
  refine ⟨?_, errKind_notFoundMsg _⟩
  simp [joinRoom, hr, habs]

/-- Concrete instantiation of `join_nonexistent_notfound`: `bob` stays joined
to exactly `alpha` after a failed join of the absent `gamma`. -/
theorem join_nonexistent_notfound_witness :
    joinRoom stW sockW2 "gamma"
        = (sockW2, [Action.emitSelf (Event.error (notFoundMsg (jsTrim "gamma")))])
    ∧ errKind (notFoundMsg (jsTrim "gamma")) = ErrKind.notFound :=
  join_nonexistent_notfound stW sockW2 "gamma" (by decide) (by decide)

/-! ## Claim C6 -/

/-- Claim C6: on a successful send the handler's effect trace is exactly the
ledger append followed by the room broadcast — the publish comes strictly
after the append in execution order, and the published payload fields are
exactly the fields of the persisted message (same room, author username,
trimmed text, server-assigned timestamp and identifier). -/
theorem send_persist_then_publish (st : ServerState) (self : Socket) (room text : String)
    (hr : jsLength (jsTrim room) ≠ 0) (ht : jsLength (jsTrim text) ≠ 0)
    (hlen : jsLength text ≤ 1000) (hmem : jsTrim room ∈ self.rooms) :
    chatMessage st self room text
      = ({ st with messages := st.messages ++ [sentMsg st self room text], nextId := st.nextId + 1 },
         [Action.save (sentMsg st self room text),
          Action.emitRoom (sentMsg st self room text).room
            (Event.message (sentMsg st self room text).room
              (sentMsg st self room text).username
              (sentMsg st self room text).text
              (sentMsg st self room text).ts
              (sentMsg st self room text).id)]) := by
  simp [chatMessage, hr, ht, hmem, Nat.not_lt.2 hlen, sentMsg]

/-- Concrete instantiation of `send_persist_then_publish` (note the stored
and broadcast text is the trimmed `"hi"`). -/
theorem send_persist_then_publish_witness :
    chatMessage stW sockW2 "alpha" " hi "
      = ({ stW with messages := stW.messages ++ [sentMsg stW sockW2 "alpha" " hi "], nextId := stW.nextId + 1 },
         [Action.save (sentMsg stW sockW2 "alpha" " hi "),
          Action.emitRoom (sentMsg stW sockW2 "alpha" " hi ").room
            (Event.message (sentMsg stW sockW2 "alpha" " hi ").room
              (sentMsg stW sockW2 "alpha" " hi ").username
              (sentMsg stW sockW2 "alpha" " hi ").text
              (sentMsg stW sockW2 "alpha" " hi ").ts
              (sentMsg stW sockW2 "alpha" " hi ").id)]) :=
  send_persist_then_publish stW sockW2 "alpha" " hi "
    (by decide) (by decide) (by decide) (by decide)

/-! ## Claim C4 -/

/-- Claim C4, as stated, is false: the REST `POST /api/chat/messages` handler
performs no room-existence check, so with an empty room collection a POST for
room `ghost` is accepted (201) and the stored message's room has no
corresponding room. -/
theorem post_message_ghost_room_cex :
    (postMessage { rooms := [], messages := [], nextId := 0, now := 5 } "alice" "ghost" "hi").2.isCreated
        = true
    ∧ ((postMessage { rooms := [], messages := [], nextId := 0, now := 5 } "alice" "ghost" "hi").1.messages.all
        (fun m => decide (m.room ∈ (postMessage { rooms := [], messages := [], nextId := 0, now := 5 } "alice" "ghost" "hi").1.rooms)))
        = false := by
  decide

/-- Claim C4 amended: only the socket `chatMessage` path guards the append —
and only by the sender's transport membership (`socket.rooms`), while the
REST `POST /api/chat/messages` path appends any validated message with no
room-existence check at all, so a stored message's room need not exist. -/
theorem message_append_room_checks (st : ServerState) (self : Socket) (user room text : String) :
    (∀ a ∈ (chatMessage st self room text).2, ∀ m : Msg, a = Action.save m → m.room ∈ self.rooms)
    ∧ (jsLength (jsTrim room) ≠ 0 → 1 ≤ jsLength (jsTrim text) → jsLength (jsTrim text) ≤ 1000 →
        postMessage st user room text
          = ({ st with messages := st.messages ++ [restMsg st user room text], nextId := st.nextId + 1 },
             RestResult.created (restMsg st user room text))) := by
  constructor
  · intro a ha m ham
    subst ham
    by_cases h1 : jsLength (jsTrim room) = 0
    · simp [chatMessage, h1] at ha
    · by_cases h2 : jsLength (jsTrim text) = 0
      · simp [chatMessage, h1, h2] at ha
      · by_cases h3 : 1000 < jsLength text
        · simp [chatMessage, h1, h2, h3] at ha
        · by_cases h4 : jsTrim room ∈ self.rooms
          · simp [chatMessage, h1, h2, h3, h4] at ha
            rw [ha]
            exact h4
          · simp [chatMessage, h1, h2, h3, h4] at ha
  · intro h1 h2 h3
    have h2b : ¬ jsLength (jsTrim text) = 0 := by omega
    have h3b : ¬ 1000 < jsLength (jsTrim text) := by omega
    simp [postMessage, h1, h2b, h3b, restMsg]

/-- Concrete instantiation of `message_append_room_checks`: the REST path
appends for the absent room `ghost`. -/
theorem message_append_room_checks_witness :
    postMessage stW "carol" "ghost" "hi"
      = ({ stW with messages := stW.messages ++ [restMsg stW "carol" "ghost" "hi"], nextId := stW.nextId + 1 },
         RestResult.created (restMsg stW "carol" "ghost" "hi")) :=
  (message_append_room_checks stW sockW "carol" "ghost" "hi").2
    (by decide) (by decide) (by decide)

/-! ## Claim C7 -/

/-- Claim C7, as stated, is false: the socket handler checks the raw
`text.length` against 1000 before trimming, so a text of raw length 1001
whose trimmed length is 1000 (within the claimed 1–1000 bound) is rejected
with the ValidationError message instead of being accepted. -/
theorem send_raw_length_reject_cex :
    1 ≤ jsLength (jsTrim longText) ∧ jsLength (jsTrim longText) ≤ 1000
    ∧ 1000 < jsLength longText
    ∧ jsTrim "alpha" ∈ sockW2.rooms
    ∧ chatMessage stW sockW2 "alpha" longText
        = (stW, [Action.emitSelf (Event.error "Message cannot exceed 1000 characters")])
    ∧ errKind "Message cannot exceed 1000 characters" = ErrKind.validation := by
  decide

/-- Claim C7 amended: on the socket path a send (to a validated, joined room)
appends iff the trimmed text is nonempty and the RAW text length is at most
1000 — a raw length over 1000 is rejected even when the trimmed length is
within bounds; on the REST path acceptance is by the trimmed length being
between 1 and 1000. -/
theorem text_acceptance_bounds (st : ServerState) (self : Socket) (user room text : String)
    (hr : jsLength (jsTrim room) ≠ 0) (hmem : jsTrim room ∈ self.rooms) :
    (((chatMessage st self room text).2.any Action.isSave) = true
        ↔ 1 ≤ jsLength (jsTrim text) ∧ jsLength text ≤ 1000)
    ∧ (((postMessage st user room text).2.isCreated) = true
        ↔ 1 ≤ jsLength (jsTrim text) ∧ jsLength (jsTrim text) ≤ 1000) := by
  constructor
  · by_cases h2 : jsLength (jsTrim text) = 0
    · simp only [chatMessage, if_neg hr, if_pos h2]
      simp [Action.isSave]
      omega
    · by_cases h3 : 1000 < jsLength text
      · simp only [chatMessage, if_neg hr, if_neg h2, if_pos h3]
        simp [Action.isSave]
        omega
      · simp only [chatMessage, if_neg hr, if_neg h2, if_neg h3, if_pos hmem]
        simp [Action.isSave]
        omega
  · by_cases h2 : jsLength (jsTrim text) = 0
    · simp only [postMessage, if_neg hr, if_pos h2]
      simp [RestResult.isCreated]
      omega
    · by_cases h3 : 1000 < jsLength (jsTrim text)
      · simp only [postMessage, if_neg hr, if_neg h2, if_pos h3]
        simp [RestResult.isCreated]
        omega
      · simp only [postMessage, if_neg hr, if_neg h2, if_neg h3]
        simp [RestResult.isCreated]
        omega

/-- Concrete instantiation of `text_acceptance_bounds`. -/
theorem text_acceptance_bounds_witness :
    (((chatMessage stW sockW2 "alpha" "hello").2.any Action.isSave) = true
        ↔ 1 ≤ jsLength (jsTrim "hello") ∧ jsLength "hello" ≤ 1000)
    ∧ (((postMessage stW "carol" "alpha" "hello").2.isCreated) = true
        ↔ 1 ≤ jsLength (jsTrim "hello") ∧ jsLength (jsTrim "hello") ≤ 1000) :=
  text_acceptance_bounds stW sockW2 "carol" "alpha" "hello" (by decide) (by decide)

/-! ## Claim C8 -/

/-- Claim C8, as stated, is false: the `joinRoom` handler checks only that
the trimmed name is nonempty — it never checks the 1–50-character
letters/digits/hyphen/underscore grammar — so the grammar-violating name
`a!` reaches the Room Directory query and fails with the NotFound error, not
a ValidationError. -/
theorem join_skips_grammar_cex :
    validRoomName (jsTrim "a!") = false
    ∧ jsLength (jsTrim "a!") ≠ 0
    ∧ joinRoom stW sockW "a!" = (sockW, [Action.emitSelf (Event.error (notFoundMsg "a!"))])
    ∧ errKind (notFoundMsg "a!") = ErrKind.notFound
    ∧ errKind (notFoundMsg "a!") ≠ ErrKind.validation := by
  decide

/-- Claim C8 amended: `join` validates only non-emptiness of the trimmed
name; the room-name grammar is enforced only at room creation (the Room
schema and the `POST /rooms` validators), so a grammar-violating, absent name
passed to `join` fails with the NotFound error after the directory query,
while the creation route rejects it with a ValidationError. -/
theorem grammar_checked_at_creation_only (st : ServerState) (self : Socket) (name : String)
    (hne : jsLength (jsTrim name) ≠ 0) (hbad : validRoomName (jsTrim name) = false)
    (habs : jsTrim name ∉ st.rooms) :
    joinRoom st self name = (self, [Action.emitSelf (Event.error (notFoundMsg (jsTrim name)))])
    ∧ errKind (notFoundMsg (jsTrim name)) = ErrKind.notFound
    ∧ createRoom st name = (st, RestResult.badRequest "Validation failed") := by
  refine ⟨?_, errKind_notFoundMsg _, ?_⟩
  · simp [joinRoom, hne, habs]
  · simp [createRoom, hbad]

/-- Concrete instantiation of `grammar_checked_at_creation_only`. -/
theorem grammar_checked_at_creation_only_witness :
    joinRoom stW sockW "a!" = (sockW, [Action.emitSelf (Event.error (notFoundMsg (jsTrim "a!")))])
    ∧ errKind (notFoundMsg (jsTrim "a!")) = ErrKind.notFound
    ∧ createRoom stW "a!" = (stW, RestResult.badRequest "Validation failed") :=
  grammar_checked_at_creation_only stW sockW "a!" (by decide) (by decide) (by decide)

/-! ## Claim C9 -/

/-- Claim C9: the socket authentication middleware succeeds exactly on a
well-formed, unexpired credential whose identity claim resolves to a stored
user, and then the session identity (`socket.userId`, `socket.username`) is
the identity encoded in the credential (the repository signs tokens as
`{ userId, username }` with the user's own username, whence the
`u.username = uname` consistency hypothesis); every other credential fails
with its specific AuthError and no session state is produced. -/
theorem socket_auth_identity (verify : String → JwtResult) (users : List User) :
    (∀ t uid uname u, verify t = JwtResult.ok uid uname → findUser users uid = some u →
        u.username = uname →
        socketAuth verify users (some t) = AuthOutcome.success uid uname)
    ∧ socketAuth verify users none
        = AuthOutcome.failure "Authentication error: No token provided"
    ∧ (∀ t, verify t = JwtResult.malformed →
        socketAuth verify users (some t)
          = AuthOutcome.failure "Authentication error: Invalid token")
    ∧ (∀ t, verify t = JwtResult.expired →
        socketAuth verify users (some t)
          = AuthOutcome.failure "Authentication error: Token expired")
    ∧ (∀ t uid uname, verify t = JwtResult.ok uid uname → findUser users uid = none →
        socketAuth verify users (some t)
          = AuthOutcome.failure "Authentication error: User not found") := by
  refine ⟨?_, rfl, ?_, ?_, ?_⟩
  · intro t uid uname u hv hf hu
    have hf2 : List.find? (fun x => decide (x.uid = uid)) users = some u := hf
    have h3 := List.find?_some hf2
    simp only [decide_eq_true_eq] at h3
    have huid : u.uid = uid := h3
    show (match verify t with
      | JwtResult.malformed => AuthOutcome.failure "Authentication error: Invalid token"
      | JwtResult.expired => AuthOutcome.failure "Authentication error: Token expired"
      | JwtResult.ok userId _ =>
        match findUser users userId with
        | none => AuthOutcome.failure "Authentication error: User not found"
        | some u => AuthOutcome.success u.uid u.username)
      = AuthOutcome.success uid uname
    rw [hv]
    show (match findUser users uid with
      | none => AuthOutcome.failure "Authentication error: User not found"
      | some u => AuthOutcome.success u.uid u.username) = AuthOutcome.success uid uname
    rw [hf]
    show AuthOutcome.success u.uid u.username = AuthOutcome.success uid uname
    rw [huid, hu]
  · intro t hv
    show (match verify t with
      | JwtResult.malformed => AuthOutcome.failure "Authentication error: Invalid token"
      | JwtResult.expired => AuthOutcome.failure "Authentication error: Token expired"
      | JwtResult.ok userId _ =>
        match findUser users userId with
        | none => AuthOutcome.failure "Authentication error: User not found"
        | some u => AuthOutcome.success u.uid u.username)
      = AuthOutcome.failure "Authentication error: Invalid token"
    rw [hv]
  · intro t hv
    show (match verify t with
      | JwtResult.malformed => AuthOutcome.failure "Authentication error: Invalid token"
      | JwtResult.expired => AuthOutcome.failure "Authentication error: Token expired"
      | JwtResult.ok userId _ =>
        match findUser users userId with
        | none => AuthOutcome.failure "Authentication error: User not found"
        | some u => AuthOutcome.success u.uid u.username)
      = AuthOutcome.failure "Authentication error: Token expired"
    rw [hv]
  · intro t uid uname hv hf
    show (match verify t with
      | JwtResult.malformed => AuthOutcome.failure "Authentication error: Invalid token"
      | JwtResult.expired => AuthOutcome.failure "Authentication error: Token expired"
      | JwtResult.ok userId _ =>
        match findUser users userId with
        | none => AuthOutcome.failure "Authentication error: User not found"
        | some u => AuthOutcome.success u.uid u.username)
      = AuthOutcome.failure "Authentication error: User not found"
    rw [hv]
    show (match findUser users uid with
      | none => AuthOutcome.failure "Authentication error: User not found"
      | some u => AuthOutcome.success u.uid u.username)
      = AuthOutcome.failure "Authentication error: User not found"
    rw [hf]

/-- Concrete instantiation of `socket_auth_identity`. -/
theorem socket_auth_identity_witness :
    socketAuth verifyW usersW (some "tok") = AuthOutcome.success "u1" "alice" :=
  (socket_auth_identity verifyW usersW).1 "tok" "u1" "alice"
    { uid := "u1", username := "alice" } (by decide) (by decide) rfl

/-! ## Claim C10 -/

/-- Claim C10: after a successful join, the `userJoined` notification is
delivered (`socket.to(room).emit` semantics) to exactly the sockets currently
in the room other than the joiner — the joiner itself never receives it —
while the history event goes to the joiner alone. -/
theorem join_notification_excludes_joiner (st : ServerState) (self : Socket) (room : String)
    (sockets : List Socket) (hr : jsLength (jsTrim room) ≠ 0) (hex : jsTrim room ∈ st.rooms) :
    joinRoom st self room
      = (Socket.join self (jsTrim room),
         [Action.emitSelf
            (Event.roomHistory (jsTrim room) (recentMessages st.messages (jsTrim room) 50)),
          Action.emitRoomExceptSelf (jsTrim room) (Event.userJoined self.username (jsTrim room))])
    ∧ self.sid ∉ deliverTo sockets self.sid
        (Action.emitRoomExceptSelf (jsTrim room) (Event.userJoined self.username (jsTrim room)))
    ∧ (∀ s ∈ sockets, jsTrim room ∈ s.rooms → s.sid ≠ self.sid →
        s.sid ∈ deliverTo sockets self.sid
          (Action.emitRoomExceptSelf (jsTrim room) (Event.userJoined self.username (jsTrim room))))
    ∧ deliverTo sockets self.sid
        (Action.emitSelf
          (Event.roomHistory (jsTrim room) (recentMessages st.messages (jsTrim room) 50)))
        = [self.sid] := by
  refine ⟨?_, ?_, ?_, rfl⟩
  · simp [joinRoom, hr, hex]
  · intro hmem
    simp only [deliverTo, List.mem_map, List.mem_filter, Bool.and_eq_true,
      decide_eq_true_eq] at hmem
    obtain ⟨s, ⟨_, _, hne⟩, hsid⟩ := hmem
    exact hne hsid
  · intro s hs hroom hne
    simp only [deliverTo, List.mem_map, List.mem_filter, Bool.and_eq_true,
      decide_eq_true_eq]
    exact ⟨s, ⟨hs, hroom, hne⟩, rfl⟩

/-- Concrete instantiation of `join_notification_excludes_joiner`: `alice`
joins `alpha` while `bob` is already in it. -/
theorem join_notification_excludes_joiner_witness :
    joinRoom stW sockW "alpha"
      = (Socket.join sockW (jsTrim "alpha"),
         [Action.emitSelf
            (Event.roomHistory (jsTrim "alpha") (recentMessages stW.messages (jsTrim "alpha") 50)),
          Action.emitRoomExceptSelf (jsTrim "alpha") (Event.userJoined sockW.username (jsTrim "alpha"))])
    ∧ sockW.sid ∉ deliverTo [sockW2] sockW.sid
        (Action.emitRoomExceptSelf (jsTrim "alpha") (Event.userJoined sockW.username (jsTrim "alpha")))
    ∧ (∀ s ∈ [sockW2], jsTrim "alpha" ∈ s.rooms → s.sid ≠ sockW.sid →
        s.sid ∈ deliverTo [sockW2] sockW.sid
          (Action.emitRoomExceptSelf (jsTrim "alpha") (Event.userJoined sockW.username (jsTrim "alpha"))))
    ∧ deliverTo [sockW2] sockW.sid
        (Action.emitSelf
          (Event.roomHistory (jsTrim "alpha") (recentMessages stW.messages (jsTrim "alpha") 50)))
        = [sockW.sid] :=
  join_notification_excludes_joiner stW sockW "alpha" [sockW2] (by decide) (by decide)

/-! ## Claim C5 -/

/-- Claim C5's equality, as stated, is false at a timestamp tie: with two
messages of equal `ts` in the room, sort-descending/take/reverse returns the
two in the opposite order from the last-two-in-chronological-order reading,
because reversing flips the relative order of tied elements.  The at-most-
`limit` and non-decreasing-order parts do hold at this input. -/
theorem recent_ties_cex :
    List.Sorted tsLe (recentMessages tieStore "r" 2)
    ∧ (recentMessages tieStore "r" 2).length ≤ 2
    ∧ recentMessages tieStore "r" 2 ≠ lastChronological tieStore "r" 2 := by
  decide

/-- Claim C5 amended: the history read returns at most `lim` messages in
non-decreasing timestamp order, and when the room's messages carry pairwise
distinct timestamps it equals the last `lim` messages in chronological
order; with tied timestamps the two can differ in the order of the tied
elements. -/
theorem recent_ordered_and_last (store : List Msg) (room : String) (lim : Nat) :
    (recentMessages store room lim).length ≤ lim
    ∧ List.Sorted tsLe (recentMessages store room lim)
    ∧ ((roomMsgs store room).Pairwise (fun a b => a.ts ≠ b.ts) →
        recentMessages store room lim = lastChronological store room lim) := by
  refine ⟨?_, ?_, ?_⟩
  · simp [recentMessages]
  · have hsD : List.Pairwise tsGe (List.insertionSort tsGe (roomMsgs store room)) :=
      List.sorted_insertionSort tsGe (roomMsgs store room)
    have htake : List.Pairwise tsGe ((List.insertionSort tsGe (roomMsgs store room)).take lim) :=
      List.Pairwise.take hsD
    exact List.pairwise_reverse.2 (htake.imp (fun h => h))
  · intro hnd
    have hsymne : ∀ {x y : Msg}, x.ts ≠ y.ts → y.ts ≠ x.ts := fun h => Ne.symm h
    have hpermA : List.Perm (List.insertionSort tsLe (roomMsgs store room)) (roomMsgs store room) :=
      List.perm_insertionSort tsLe (roomMsgs store room)
    have hpermD : List.Perm (List.insertionSort tsGe (roomMsgs store room)) (roomMsgs store room) :=
      List.perm_insertionSort tsGe (roomMsgs store room)
    have hndA : (List.insertionSort tsLe (roomMsgs store room)).Pairwise
        (fun a b => a.ts ≠ b.ts) := (hpermA.pairwise_iff hsymne).2 hnd
    have hndD : (List.insertionSort tsGe (roomMsgs store room)).Pairwise
        (fun a b => a.ts ≠ b.ts) := (hpermD.pairwise_iff hsymne).2 hnd
    have hsA : List.Pairwise tsLe (List.insertionSort tsLe (roomMsgs store room)) :=
      List.sorted_insertionSort tsLe (roomMsgs store room)
    have hsD : List.Pairwise tsGe (List.insertionSort tsGe (roomMsgs store room)) :=
      List.sorted_insertionSort tsGe (roomMsgs store room)
    have hstrictD : List.Pairwise tsGt (List.insertionSort tsGe (roomMsgs store room)) :=
      (hsD.and hndD).imp (fun h => Nat.lt_of_le_of_ne h.1 (Ne.symm h.2))
    have hstrictA : (List.insertionSort tsLe (roomMsgs store room)).Pairwise
        (fun a b => a.ts < b.ts) :=
      (hsA.and hndA).imp (fun h => Nat.lt_of_le_of_ne h.1 h.2)
    have hstrictArev : (List.insertionSort tsLe (roomMsgs store room)).reverse.Pairwise tsGt :=
      List.pairwise_reverse.2 (hstrictA.imp (fun h => h))
    have hperm2 : List.Perm (List.insertionSort tsGe (roomMsgs store room))
        (List.insertionSort tsLe (roomMsgs store room)).reverse :=
      hpermD.trans (hpermA.symm.trans (List.reverse_perm _).symm)
    have hDeq : List.insertionSort tsGe (roomMsgs store room)
        = (List.insertionSort tsLe (roomMsgs store room)).reverse :=
      List.eq_of_perm_of_sorted hperm2 hstrictD hstrictArev
    show ((List.insertionSort tsGe (roomMsgs store room)).take lim).reverse
        = (List.insertionSort tsLe (roomMsgs store room)).drop
            ((List.insertionSort tsLe (roomMsgs store room)).length - lim)
    rw [hDeq, ← List.rtake_eq_reverse_take_reverse]
    rfl

/-- Concrete instantiation of `recent_ordered_and_last` on a store with
pairwise-distinct timestamps. -/
theorem recent_ordered_and_last_witness :
    (recentMessages distinctStore "r" 2).length ≤ 2
    ∧ List.Sorted tsLe (recentMessages distinctStore "r" 2)
    ∧ recentMessages distinctStore "r" 2 = lastChronological distinctStore "r" 2 :=
  ⟨(recent_ordered_and_last distinctStore "r" 2).1,
   (recent_ordered_and_last distinctStore "r" 2).2.1,
   (recent_ordered_and_last distinctStore "r" 2).2.2 (by decide)⟩

end MiniMessenger
